import Mathlib

/-!
Verification of the Momento DynamoDB proxy interceptor
(`src/proxy_interceptor.rs`): a staged configuration builder and a
post-signing request interceptor that rewrites an outbound request to
target a cache proxy.

The embedding models:
* `std::time::Duration` (seconds + nanoseconds, `as_millis`);
* the typestate builder `AcceleratorConfigBuilder` with its stages
  `WantsCacheName → WantsMomentoHost → WantsAuthToken → WantsTtl →
  AcceleratorConfig`;
* `ProxyInterceptor::new`, whose TTL field is the duration's milliseconds
  saturated at `u32::MAX` and rendered in decimal (the rendering models
  Rust's `u128::to_string`);
* `ProxyInterceptor::modify_before_transmit`, as a pure transformer of a
  request value (URI, header list, body).  The fallibility of smithy's
  `Uri::try_from` (external code) is abstracted by a validity predicate
  passed as a parameter; the `.expect` panic is a distinguished outcome
  carrying the request exactly as it stood when the panic fired.
-/

/-- Models Rust `std::time::Duration`: whole seconds (`u64`) plus a
nanosecond remainder (`u32`, below 10^9 in any value `std` constructs). -/
structure Duration where
  secs : Nat
  nanos : Nat
deriving DecidableEq, Repr

/-- Models `Duration::as_millis`: whole milliseconds, as the `u128` value
`secs * 1000 + nanos / 1_000_000` (no overflow is possible in `u128`). -/
def Duration.asMillis (d : Duration) : Nat :=
  d.secs * 1000 + d.nanos / 1000000

/-- Models `Duration::from_secs`. -/
def Duration.from_secs (s : Nat) : Duration := ⟨s, 0⟩

/-- Rust `u64::MAX`. -/
def u64MAX : Nat := 18446744073709551615

/-- Rust `u32::MAX`, the saturation bound for the TTL in milliseconds. -/
def u32MAX : Nat := 4294967295

/-- One digit character, as Rust's integer formatting emits it
(models the digit step of `core::fmt` for unsigned integers). -/
def digitOf (k : Nat) : Char := Nat.digitChar k

/-- Fuel-bounded big-endian decimal digit list of `n`; with fuel above `n`
this is exactly the decimal rendering `u128::to_string` produces. -/
def natToDigits : Nat → Nat → List Char
  | 0, _ => []
  | fuel + 1, n =>
    if n < 10 then [digitOf n]
    else natToDigits fuel (n / 10) ++ [digitOf (n % 10)]

/-- Models `u128::to_string` (via `core::fmt::Display`): the base-10
rendering of the value, most significant digit first. -/
def toDecimalString (n : Nat) : String :=
  String.mk (natToDigits (n + 1) n)

/-- The numeric value a character list denotes when read as base-10
digits (each digit char's value is its code point minus 48). -/
def digitsVal (l : List Char) : Nat :=
  l.foldl (fun a c => 10 * a + (c.toNat - 48)) 0

/-- The numeric value of a string read as base-10 digits. -/
def strVal (s : String) : Nat := digitsVal s.data

/-- `true` unless the list starts with `'0'` followed by more characters. -/
def noLeadingZero : List Char → Bool
  | c :: _ :: _ => c != '0'
  | _ => true

/-- A canonical base-10 integer string: nonempty, all digit characters,
and no leading zeros. -/
def isCanonicalDecimal (s : String) : Bool :=
  !s.data.isEmpty && s.data.all Char.isDigit && noLeadingZero s.data

/-! ## The staged configuration builder (`AcceleratorConfigBuilder`) -/

/-- Builder stage: wants the cache name (`struct WantsCacheName;`). -/
structure WantsCacheName where
deriving DecidableEq, Repr

/-- Builder stage: wants the Momento host (`struct WantsMomentoHost`). -/
structure WantsMomentoHost where
  cache_name : String
deriving DecidableEq, Repr

/-- Builder stage: wants the auth token (`struct WantsAuthToken`). -/
structure WantsAuthToken where
  uri : String
deriving DecidableEq, Repr

/-- Builder stage: wants the TTL (`struct WantsTtl`). -/
structure WantsTtl where
  uri : String
  auth_token : String
deriving DecidableEq, Repr

/-- The finished configuration (`struct AcceleratorConfig`): note the TTL
is stored as the raw `Duration`. -/
structure AcceleratorConfig where
  uri : String
  auth_token : String
  ttl : Duration
deriving DecidableEq, Repr

/-- The generic single-field builder wrapper
(`pub struct AcceleratorConfigBuilder<T>(T);`). -/
structure AcceleratorConfigBuilder (T : Type) where
  val : T
deriving DecidableEq, Repr

/-- Models `accelerator_config()`: the builder at its first stage. -/
def accelerator_config : AcceleratorConfigBuilder WantsCacheName := ⟨⟨⟩⟩

/-- Models `AcceleratorConfigBuilder::cache_name`. -/
def AcceleratorConfigBuilder.cache_name
    (_ : AcceleratorConfigBuilder WantsCacheName) (cache_name : String) :
    AcceleratorConfigBuilder WantsMomentoHost :=
  ⟨⟨cache_name⟩⟩

/-- Models `AcceleratorConfigBuilder::momento_hostname`: synthesizes the
proxy URI by the fixed template of the source's `format!` call. -/
def AcceleratorConfigBuilder.momento_hostname
    (b : AcceleratorConfigBuilder WantsMomentoHost) (uri : String) :
    AcceleratorConfigBuilder WantsAuthToken :=
  ⟨⟨"https://" ++ uri ++ "/ddb/" ++ b.val.cache_name ++ "/cache"⟩⟩

/-- Models `AcceleratorConfigBuilder::auth_token`. -/
def AcceleratorConfigBuilder.auth_token
    (b : AcceleratorConfigBuilder WantsAuthToken) (auth_token : String) :
    AcceleratorConfigBuilder WantsTtl :=
  ⟨⟨b.val.uri, auth_token⟩⟩

/-- Models `AcceleratorConfigBuilder::ttl`: the terminal step, storing the
raw duration in the configuration. -/
def AcceleratorConfigBuilder.ttl
    (b : AcceleratorConfigBuilder WantsTtl) (ttl : Duration) :
    AcceleratorConfig :=
  ⟨b.val.uri, b.val.auth_token, ttl⟩

/-- The full builder pipeline applied in the source's order. -/
def buildConfig (c h t : String) (d : Duration) : AcceleratorConfig :=
  (((accelerator_config.cache_name c).momento_hostname h).auth_token t).ttl d

/-! ## The interceptor (`ProxyInterceptor`) -/

/-- Models `struct ProxyInterceptor`: proxy URI, auth token, and the TTL
pre-rendered as a header string. -/
structure ProxyInterceptor where
  proxy_uri : String
  auth_token : String
  ttl : String
deriving DecidableEq, Repr

/-- Models `ProxyInterceptor::new`: the TTL string is
`ttl.as_millis().min(u32::MAX as u128).to_string()`. -/
def ProxyInterceptor.new (proxy_uri auth_token : String) (ttl : Duration) :
    ProxyInterceptor :=
  ⟨proxy_uri, auth_token, toDecimalString (min ttl.asMillis u32MAX)⟩

/-- Models `with_momento_accelerator`'s interceptor construction:
`ProxyInterceptor::new(uri, auth_token, ttl)` from the destructured
configuration. -/
def interceptorOfConfig (cfg : AcceleratorConfig) : ProxyInterceptor :=
  ProxyInterceptor.new cfg.uri cfg.auth_token cfg.ttl

/-- The mutable outbound request as the interceptor sees it: target URI,
headers (name-value pairs in insertion order), and an opaque body. -/
structure Request where
  uri : String
  headers : List (String × String)
  body : List Nat
deriving DecidableEq, Repr

/-- Models smithy `Headers::insert`: replaces any existing values for the
name with the single new value (appended where http adds it). -/
def headersInsert (hs : List (String × String)) (name value : String) :
    List (String × String) :=
  hs.filter (fun p => p.1 != name) ++ [(name, value)]

/-- All values a header name currently holds, in order. -/
def headerValues (hs : List (String × String)) (name : String) :
    List String :=
  (hs.filter (fun p => p.1 == name)).map Prod.snd

/-- Outcome of one `modify_before_transmit` call: the `Ok(())` return with
the request as mutated, the `Result::Err` branch of its signature, or an
`.expect` panic carrying the request exactly as it stood. -/
inductive InterceptOutcome where
  | ok (req : Request)
  | err (msg : String) (req : Request)
  | panicked (msg : String) (req : Request)
deriving DecidableEq, Repr

/-- Whether an outcome is the `Result::Err` branch. -/
def InterceptOutcome.isErr : InterceptOutcome → Bool
  | .err _ _ => true
  | _ => false

/-- Models `ProxyInterceptor::modify_before_transmit`.  `uriValid`
abstracts smithy's `Uri::try_from` (external code): when the configured
proxy URI fails to parse, the source's `.expect("must be a valid uri")`
panics before any mutation of the request; otherwise the URI is replaced
and the three headers are inserted, and the function returns `Ok(())`. -/
def ProxyInterceptor.modify_before_transmit (self : ProxyInterceptor)
    (uriValid : String → Bool) (req : Request) : InterceptOutcome :=
  let requested := req.uri
  if uriValid self.proxy_uri then
    let req1 := { req with uri := self.proxy_uri }
    let req2 := { req1 with
      headers := headersInsert req1.headers "x-uri" requested }
    let req3 := { req2 with
      headers := headersInsert req2.headers "x-momento-authorization"
        self.auth_token }
    let req4 := { req3 with
      headers := headersInsert req3.headers "x-ttl-millis" self.ttl }
    .ok req4
  else
    .panicked "must be a valid uri" req

/-- The request produced by a successful rewrite, in closed form. -/
def rewritten (self : ProxyInterceptor) (req : Request) : Request :=
  { uri := self.proxy_uri
    headers :=
      headersInsert
        (headersInsert
          (headersInsert req.headers "x-uri" req.uri)
          "x-momento-authorization" self.auth_token)
        "x-ttl-millis" self.ttl
    body := req.body }

theorem modify_eq_rewritten (self : ProxyInterceptor)
    (uriValid : String → Bool) (req : Request)
    (h : uriValid self.proxy_uri = true) :
    self.modify_before_transmit uriValid req = .ok (rewritten self req) := by
  simp [ProxyInterceptor.modify_before_transmit, rewritten, h]

theorem modify_eq_panicked (self : ProxyInterceptor)
    (uriValid : String → Bool) (req : Request)
    (h : uriValid self.proxy_uri = false) :
    self.modify_before_transmit uriValid req
      = .panicked "must be a valid uri" req := by
  simp [ProxyInterceptor.modify_before_transmit, h]

/-! ## Header-map lemmas -/

theorem headerValues_insert_self (hs : List (String × String))
    (n v : String) : headerValues (headersInsert hs n v) n = [v] := by
  unfold headerValues headersInsert
  rw [List.filter_append, List.filter_filter]
  have h1 : List.filter (fun a => a.1 == n && a.1 != n) hs = [] := by
    apply List.filter_eq_nil_iff.mpr
    intro a _
    by_cases ha : a.1 = n <;> simp [ha]
  rw [h1]
  simp

theorem headerValues_insert_other (hs : List (String × String))
    (n v m : String) (h : m ≠ n) :
    headerValues (headersInsert hs n v) m = headerValues hs m := by
  unfold headerValues headersInsert
  rw [List.filter_append, List.filter_filter]
  have h1 : List.filter (fun a => a.1 == m && a.1 != n) hs
      = List.filter (fun p => p.1 == m) hs := by
    apply List.filter_congr
    intro x _
    by_cases hx : x.1 = m
    · simp [hx, h]
    · simp [hx]
  have h2 : List.filter (fun p => p.1 == m) [(n, v)] = [] := by
    simp [Ne.symm h]
  rw [h1, h2]
  simp

/-! ## Decimal rendering lemmas -/

theorem digitOf_facts : ∀ k < 10,
    ((digitOf k).toNat - 48 = k ∧ (digitOf k).isDigit = true
      ∧ (k ≠ 0 → digitOf k ≠ '0')) := by
  decide

theorem digitsVal_append_single (l : List Char) (c : Char) :
    digitsVal (l ++ [c]) = 10 * digitsVal l + (c.toNat - 48) := by
  simp [digitsVal, List.foldl_append]

theorem natToDigits_spec : ∀ fuel n, n < fuel →
    digitsVal (natToDigits fuel n) = n
    ∧ (natToDigits fuel n).all Char.isDigit = true
    ∧ natToDigits fuel n ≠ []
    ∧ (n ≠ 0 → (natToDigits fuel n).head? ≠ some '0')
    ∧ (n = 0 → natToDigits fuel n = ['0']) := by
  intro fuel
  induction fuel with
  | zero => intro n hn; exact absurd hn (Nat.not_lt_zero n)
  | succ f ih =>
    intro n hn
    by_cases h10 : n < 10
    · have hf := digitOf_facts n h10
      simp only [natToDigits, if_pos h10]
      refine ⟨?_, ?_, ?_, ?_, ?_⟩
      · simp [digitsVal, hf.1]
      · simp [hf.2.1]
      · simp
      · intro hne
        simp [hf.2.2 hne]
      · intro h0
        subst h0
        rfl
    · have hlt : n / 10 < n := Nat.div_lt_self (by omega) (by omega)
      have hdiv : n / 10 < f := by omega
      obtain ⟨iv, idig, inil, ihead, -⟩ := ih (n / 10) hdiv
      have hmod := digitOf_facts (n % 10) (Nat.mod_lt n (by omega))
      simp only [natToDigits, if_neg h10]
      refine ⟨?_, ?_, ?_, ?_, ?_⟩
      · rw [digitsVal_append_single, iv, hmod.1]
        omega
      · simp [List.all_append, idig, hmod.2.1]
      · simp
      · intro _
        obtain ⟨a, tl, hl⟩ := List.exists_cons_of_ne_nil inil
        have hquo : n / 10 ≠ 0 := by omega
        have := ihead hquo
        rw [hl] at this ⊢
        simpa using this
      · intro h0
        omega

theorem strVal_toDecimalString (n : Nat) : strVal (toDecimalString n) = n := by
  have := (natToDigits_spec (n + 1) n (Nat.lt_succ_self n)).1
  simpa [strVal, toDecimalString] using this

theorem noLeadingZero_of_head (l : List Char) (hnil : l ≠ [])
    (hhead : l.head? ≠ some '0') : noLeadingZero l = true := by
  obtain ⟨a, tl, rfl⟩ := List.exists_cons_of_ne_nil hnil
  have ha : a ≠ '0' := by
    intro h
    exact hhead (by rw [h]; rfl)
  cases tl with
  | nil => rfl
  | cons b tl2 => simp [noLeadingZero, ha]

theorem isCanonicalDecimal_toDecimalString (n : Nat) :
    isCanonicalDecimal (toDecimalString n) = true := by
  obtain ⟨-, hdig, hnil, hhead, hzero⟩ :=
    natToDigits_spec (n + 1) n (Nat.lt_succ_self n)
  by_cases hn : n = 0
  · subst hn
    decide
  · show (!(natToDigits (n + 1) n).isEmpty
        && (natToDigits (n + 1) n).all Char.isDigit
        && noLeadingZero (natToDigits (n + 1) n)) = true
    rw [noLeadingZero_of_head _ hnil (hhead hn), hdig]
    simp [hnil]

/-! ## Public-API builder traces (the typestate guarantee) -/

/-- One call of the public builder API. -/
inductive BuilderStep where
  | cache_name (s : String)
  | momento_hostname (s : String)
  | auth_token (s : String)
  | ttl (d : Duration)
deriving DecidableEq, Repr

/-- A value the builder API can hold: one of the four stages, or the
finished configuration. -/
inductive BuilderState where
  | b0 (b : AcceleratorConfigBuilder WantsCacheName)
  | b1 (b : AcceleratorConfigBuilder WantsMomentoHost)
  | b2 (b : AcceleratorConfigBuilder WantsAuthToken)
  | b3 (b : AcceleratorConfigBuilder WantsTtl)
  | done (c : AcceleratorConfig)
deriving DecidableEq, Repr

/-- Applies one API call to a state: `some` exactly when the source's
typestate offers that method on that stage's type (each stage implements
exactly one method, and the finished configuration implements none). -/
def applyStep : BuilderState → BuilderStep → Option BuilderState
  | .b0 b, .cache_name s => some (.b1 (b.cache_name s))
  | .b1 b, .momento_hostname s => some (.b2 (b.momento_hostname s))
  | .b2 b, .auth_token s => some (.b3 (b.auth_token s))
  | .b3 b, .ttl d => some (.done (b.ttl d))
  | _, _ => none

/-- Runs a sequence of API calls from a state. -/
def runSteps : BuilderState → List BuilderStep → Option BuilderState
  | s, [] => some s
  | s, step :: rest =>
    match applyStep s step with
    | some s2 => runSteps s2 rest
    | none => none

/-! ## Helper lemmas about the rewritten request -/

theorem rewritten_x_uri (i : ProxyInterceptor) (req : Request) :
    headerValues (rewritten i req).headers "x-uri" = [req.uri] := by
  show headerValues
    (headersInsert
      (headersInsert (headersInsert req.headers "x-uri" req.uri)
        "x-momento-authorization" i.auth_token)
      "x-ttl-millis" i.ttl) "x-uri" = [req.uri]
  rw [headerValues_insert_other _ _ _ _ (by decide),
      headerValues_insert_other _ _ _ _ (by decide),
      headerValues_insert_self]

theorem rewritten_x_auth (i : ProxyInterceptor) (req : Request) :
    headerValues (rewritten i req).headers "x-momento-authorization"
      = [i.auth_token] := by
  show headerValues
    (headersInsert
      (headersInsert (headersInsert req.headers "x-uri" req.uri)
        "x-momento-authorization" i.auth_token)
      "x-ttl-millis" i.ttl) "x-momento-authorization" = [i.auth_token]
  rw [headerValues_insert_other _ _ _ _ (by decide),
      headerValues_insert_self]

theorem rewritten_x_ttl (i : ProxyInterceptor) (req : Request) :
    headerValues (rewritten i req).headers "x-ttl-millis" = [i.ttl] := by
  show headerValues
    (headersInsert
      (headersInsert (headersInsert req.headers "x-uri" req.uri)
        "x-momento-authorization" i.auth_token)
      "x-ttl-millis" i.ttl) "x-ttl-millis" = [i.ttl]
  rw [headerValues_insert_self]

theorem rewritten_other_header (i : ProxyInterceptor) (req : Request)
    (n : String) (h1 : n ≠ "x-uri") (h2 : n ≠ "x-momento-authorization")
    (h3 : n ≠ "x-ttl-millis") :
    headerValues (rewritten i req).headers n = headerValues req.headers n := by
  show headerValues
    (headersInsert
      (headersInsert (headersInsert req.headers "x-uri" req.uri)
        "x-momento-authorization" i.auth_token)
      "x-ttl-millis" i.ttl) n = headerValues req.headers n
  rw [headerValues_insert_other _ _ _ _ h3,
      headerValues_insert_other _ _ _ _ h2,
      headerValues_insert_other _ _ _ _ h1]

/-! ## The claims -/

/-- C1: after a single invocation of `modify_before_transmit` on a request
with original URI `U` (when the configured proxy URI parses), the request's
URI equals the configured proxy URI, header `x-uri` equals `U` exactly,
header `x-momento-authorization` equals the configured token, and header
`x-ttl-millis` equals the interceptor's pre-rendered TTL string. -/
theorem intercept_rewrites_uri_and_headers (i : ProxyInterceptor)
    (v : String → Bool) (req : Request) (hv : v i.proxy_uri = true) :
    i.modify_before_transmit v req = .ok (rewritten i req)
    ∧ (rewritten i req).uri = i.proxy_uri
    ∧ headerValues (rewritten i req).headers "x-uri" = [req.uri]
    ∧ headerValues (rewritten i req).headers "x-momento-authorization"
        = [i.auth_token]
    ∧ headerValues (rewritten i req).headers "x-ttl-millis" = [i.ttl] :=
  ⟨modify_eq_rewritten i v req hv, rfl, rewritten_x_uri i req,
    rewritten_x_auth i req, rewritten_x_ttl i req⟩

/-- C1 witness: the rewrite at a concrete interceptor and request. -/
theorem intercept_rewrites_uri_and_headers_witness :
    (ProxyInterceptor.mk "https://p.example/ddb/c/cache" "tok"
        "60000").modify_before_transmit (fun _ => true)
        (Request.mk "https://ddb.example/" [("host", "ddb.example")] [1, 2])
      = .ok (rewritten
          (ProxyInterceptor.mk "https://p.example/ddb/c/cache" "tok" "60000")
          (Request.mk "https://ddb.example/" [("host", "ddb.example")]
            [1, 2]))
    ∧ (rewritten
        (ProxyInterceptor.mk "https://p.example/ddb/c/cache" "tok" "60000")
        (Request.mk "https://ddb.example/" [("host", "ddb.example")]
          [1, 2])).uri = "https://p.example/ddb/c/cache"
    ∧ headerValues (rewritten
        (ProxyInterceptor.mk "https://p.example/ddb/c/cache" "tok" "60000")
        (Request.mk "https://ddb.example/" [("host", "ddb.example")]
          [1, 2])).headers "x-uri" = ["https://ddb.example/"]
    ∧ headerValues (rewritten
        (ProxyInterceptor.mk "https://p.example/ddb/c/cache" "tok" "60000")
        (Request.mk "https://ddb.example/" [("host", "ddb.example")]
          [1, 2])).headers "x-momento-authorization" = ["tok"]
    ∧ headerValues (rewritten
        (ProxyInterceptor.mk "https://p.example/ddb/c/cache" "tok" "60000")
        (Request.mk "https://ddb.example/" [("host", "ddb.example")]
          [1, 2])).headers "x-ttl-millis" = ["60000"] :=
  intercept_rewrites_uri_and_headers _ _ _ rfl

/-- C2: for every duration `d`, the rendered `x-ttl-millis` string is the
base-10, no-leading-zero rendering of `min (d.as_millis()) (2^32 - 1)`;
in particular `u64::MAX` seconds renders as the saturated "4294967295". -/
theorem ttl_header_saturated_decimal (u a : String) (d : Duration) :
    strVal (ProxyInterceptor.new u a d).ttl = min d.asMillis (2 ^ 32 - 1)
    ∧ isCanonicalDecimal (ProxyInterceptor.new u a d).ttl = true
    ∧ (ProxyInterceptor.new u a (Duration.from_secs u64MAX)).ttl
        = "4294967295" := by
  refine ⟨?_, isCanonicalDecimal_toDecimalString _, ?_⟩
  · show strVal (toDecimalString (min d.asMillis u32MAX)) = _
    rw [strVal_toDecimalString]
    norm_num [u32MAX]
  · show toDecimalString (min (Duration.from_secs u64MAX).asMillis u32MAX)
        = "4294967295"
    decide

/-- C3: the builder synthesizes exactly
`"https://" ++ host ++ "/ddb/" ++ cache_name ++ "/cache"`, with host and
cache name inserted verbatim (no escaping or transformation). -/
theorem proxy_uri_template (c h t : String) (d : Duration) :
    (buildConfig c h t d).uri = "https://" ++ h ++ "/ddb/" ++ c ++ "/cache" :=
  rfl

/-- C4: a single invocation (when the proxy URI parses) leaves the body
unchanged and every header other than `x-uri`, `x-momento-authorization`
and `x-ttl-millis` unchanged; only the URI and those three headers are
touched. -/
theorem intercept_frame (i : ProxyInterceptor) (v : String → Bool)
    (req : Request) (hv : v i.proxy_uri = true) :
    i.modify_before_transmit v req = .ok (rewritten i req)
    ∧ (rewritten i req).body = req.body
    ∧ ∀ n : String, n ≠ "x-uri" → n ≠ "x-momento-authorization" →
        n ≠ "x-ttl-millis" →
        headerValues (rewritten i req).headers n
          = headerValues req.headers n :=
  ⟨modify_eq_rewritten i v req hv, rfl,
    fun n h1 h2 h3 => rewritten_other_header i req n h1 h2 h3⟩

/-- C4 witness: the frame condition at a concrete interceptor and
request carrying an unrelated header. -/
theorem intercept_frame_witness :
    (ProxyInterceptor.mk "https://p.example/" "tok"
        "60000").modify_before_transmit (fun _ => true)
        (Request.mk "https://ddb.example/" [("content-type", "json")] [3])
      = .ok (rewritten (ProxyInterceptor.mk "https://p.example/" "tok" "60000")
          (Request.mk "https://ddb.example/" [("content-type", "json")] [3]))
    ∧ (rewritten (ProxyInterceptor.mk "https://p.example/" "tok" "60000")
        (Request.mk "https://ddb.example/" [("content-type", "json")]
          [3])).body = [3]
    ∧ ∀ n : String, n ≠ "x-uri" → n ≠ "x-momento-authorization" →
        n ≠ "x-ttl-millis" →
        headerValues (rewritten
          (ProxyInterceptor.mk "https://p.example/" "tok" "60000")
          (Request.mk "https://ddb.example/" [("content-type", "json")]
            [3])).headers n
          = headerValues [("content-type", "json")] n :=
  intercept_frame _ _ _ rfl

/-- C5: when the configured proxy URI is not structurally valid, the call
fails fatally (the `.expect` panic) at the URI-replacement step, with the
request still exactly as it was (no partial application of the rewrite),
within the same synchronous invocation. -/
theorem invalid_proxy_uri_fails_fatally (i : ProxyInterceptor)
    (v : String → Bool) (req : Request) (hv : v i.proxy_uri = false) :
    i.modify_before_transmit v req = .panicked "must be a valid uri" req :=
  modify_eq_panicked i v req hv

/-- C5 witness: the fatal outcome at a concrete invalid proxy URI. -/
theorem invalid_proxy_uri_fails_fatally_witness :
    (ProxyInterceptor.mk "not a valid uri" "tok"
        "0").modify_before_transmit (fun _ => false)
        (Request.mk "https://ddb.example/" [("host", "ddb.example")] [9])
      = .panicked "must be a valid uri"
          (Request.mk "https://ddb.example/" [("host", "ddb.example")] [9]) :=
  invalid_proxy_uri_fails_fatally _ _ _ rfl

/-- C6: a second invocation on an already-rewritten request overwrites
`x-uri` with the already-rewritten URI: after two invocations `x-uri`
holds the configured proxy URI, not the original URI. -/
theorem second_intercept_overwrites_x_uri (i : ProxyInterceptor)
    (v : String → Bool) (req : Request) (r1 : Request)
    (hv : v i.proxy_uri = true)
    (h1 : i.modify_before_transmit v req = .ok r1) :
    i.modify_before_transmit v r1 = .ok (rewritten i r1)
    ∧ headerValues (rewritten i r1).headers "x-uri" = [i.proxy_uri]
    ∧ (req.uri ≠ i.proxy_uri →
        headerValues (rewritten i r1).headers "x-uri" ≠ [req.uri]) := by
  have hr1 : r1 = rewritten i req := by
    rw [modify_eq_rewritten i v req hv] at h1
    injection h1 with h
    exact h.symm
  subst hr1
  have hx : headerValues (rewritten i (rewritten i req)).headers "x-uri"
      = [i.proxy_uri] := rewritten_x_uri i (rewritten i req)
  refine ⟨modify_eq_rewritten i v (rewritten i req) hv, hx, ?_⟩
  intro hne heq
  rw [hx] at heq
  injection heq with h _
  exact hne h.symm

/-- C6 witness: two invocations at a concrete interceptor and request
whose original URI differs from the proxy URI. -/
theorem second_intercept_overwrites_x_uri_witness :
    (ProxyInterceptor.mk "https://p.example/" "tok"
        "60000").modify_before_transmit (fun _ => true)
        (rewritten (ProxyInterceptor.mk "https://p.example/" "tok" "60000")
          (Request.mk "https://orig.example/" [] []))
      = .ok (rewritten (ProxyInterceptor.mk "https://p.example/" "tok" "60000")
          (rewritten (ProxyInterceptor.mk "https://p.example/" "tok" "60000")
            (Request.mk "https://orig.example/" [] [])))
    ∧ headerValues (rewritten
        (ProxyInterceptor.mk "https://p.example/" "tok" "60000")
        (rewritten (ProxyInterceptor.mk "https://p.example/" "tok" "60000")
          (Request.mk "https://orig.example/" [] []))).headers "x-uri"
        = ["https://p.example/"]
    ∧ ("https://orig.example/" ≠ "https://p.example/" →
        headerValues (rewritten
          (ProxyInterceptor.mk "https://p.example/" "tok" "60000")
          (rewritten (ProxyInterceptor.mk "https://p.example/" "tok" "60000")
            (Request.mk "https://orig.example/" [] []))).headers "x-uri"
          ≠ ["https://orig.example/"]) :=
  second_intercept_overwrites_x_uri
    (ProxyInterceptor.mk "https://p.example/" "tok" "60000") (fun _ => true)
    (Request.mk "https://orig.example/" [] [])
    (rewritten (ProxyInterceptor.mk "https://p.example/" "tok" "60000")
      (Request.mk "https://orig.example/" [] [])) rfl rfl

/-- C7 counterexample: the configuration the builder produces holds the
raw duration, not a saturated millisecond value: at `u64::MAX` seconds the
stored duration's milliseconds differ from the saturated value. -/
theorem ttl_not_saturated_at_build :
    (buildConfig "orders" "api.cache.example.com" "tkn123"
        (Duration.from_secs u64MAX)).ttl = Duration.from_secs u64MAX
    ∧ (buildConfig "orders" "api.cache.example.com" "tkn123"
        (Duration.from_secs u64MAX)).ttl.asMillis
        ≠ min (Duration.from_secs u64MAX).asMillis (2 ^ 32 - 1) :=
  ⟨rfl, by decide⟩

/-- C7 (amended): the builder's `ttl` step stores the raw duration in the
configuration; the saturating conversion to milliseconds at the unsigned
32-bit maximum happens at interceptor construction
(`ProxyInterceptor::new`), which renders the saturated value. -/
theorem ttl_saturation_at_interceptor_construction (c h t : String)
    (d : Duration) :
    (buildConfig c h t d).ttl = d
    ∧ strVal (interceptorOfConfig (buildConfig c h t d)).ttl
        = min d.asMillis (2 ^ 32 - 1) := by
  refine ⟨rfl, ?_⟩
  show strVal (toDecimalString (min d.asMillis u32MAX)) = _
  rw [strVal_toDecimalString]
  norm_num [u32MAX]

/-- C8: a sequence of public builder-API calls from `accelerator_config()`
yields a finished configuration exactly when it is `cache_name`, then
`momento_hostname`, then `auth_token`, then `ttl`, in that order, and the
configuration is the one the pipeline builds: no reordering, no skipped
stage, and no finalization without `ttl` is possible. -/
theorem builder_trace_characterization (steps : List BuilderStep)
    (cfg : AcceleratorConfig) :
    runSteps (.b0 accelerator_config) steps = some (.done cfg)
    ↔ ∃ c h t d,
        steps = [.cache_name c, .momento_hostname h, .auth_token t, .ttl d]
        ∧ cfg = buildConfig c h t d := by
  constructor
  · intro hrun
    cases steps with
    | nil => simp [runSteps] at hrun
    | cons s1 r1 =>
      cases s1 with
      | momento_hostname s => simp [runSteps, applyStep] at hrun
      | auth_token s => simp [runSteps, applyStep] at hrun
      | ttl d => simp [runSteps, applyStep] at hrun
      | cache_name c =>
        simp only [runSteps, applyStep] at hrun
        cases r1 with
        | nil => simp [runSteps] at hrun
        | cons s2 r2 =>
          cases s2 with
          | cache_name s => simp [runSteps, applyStep] at hrun
          | auth_token s => simp [runSteps, applyStep] at hrun
          | ttl d => simp [runSteps, applyStep] at hrun
          | momento_hostname h =>
            simp only [runSteps, applyStep] at hrun
            cases r2 with
            | nil => simp [runSteps] at hrun
            | cons s3 r3 =>
              cases s3 with
              | cache_name s => simp [runSteps, applyStep] at hrun
              | momento_hostname s => simp [runSteps, applyStep] at hrun
              | ttl d => simp [runSteps, applyStep] at hrun
              | auth_token t =>
                simp only [runSteps, applyStep] at hrun
                cases r3 with
                | nil => simp [runSteps] at hrun
                | cons s4 r4 =>
                  cases s4 with
                  | cache_name s => simp [runSteps, applyStep] at hrun
                  | momento_hostname s => simp [runSteps, applyStep] at hrun
                  | auth_token s => simp [runSteps, applyStep] at hrun
                  | ttl d =>
                    simp only [runSteps, applyStep] at hrun
                    cases r4 with
                    | cons s5 r5 =>
                      cases s5 <;> simp [runSteps, applyStep] at hrun
                    | nil =>
                      simp only [runSteps, Option.some.injEq] at hrun
                      refine ⟨c, h, t, d, rfl, ?_⟩
                      cases hrun
                      rfl
  · rintro ⟨c, h, t, d, rfl, rfl⟩
    simp [runSteps, applyStep, buildConfig]

/-- C9: after a single invocation (when the proxy URI parses), each of the
three inserted header names holds exactly one value, the inserted one —
any pre-existing value under those names is replaced, not duplicated. -/
theorem intercept_headers_single_valued (i : ProxyInterceptor)
    (v : String → Bool) (req : Request) (hv : v i.proxy_uri = true) :
    i.modify_before_transmit v req = .ok (rewritten i req)
    ∧ headerValues (rewritten i req).headers "x-uri" = [req.uri]
    ∧ headerValues (rewritten i req).headers "x-momento-authorization"
        = [i.auth_token]
    ∧ headerValues (rewritten i req).headers "x-ttl-millis" = [i.ttl]
    ∧ (headerValues (rewritten i req).headers "x-uri").length = 1
    ∧ (headerValues (rewritten i req).headers
        "x-momento-authorization").length = 1
    ∧ (headerValues (rewritten i req).headers "x-ttl-millis").length
        = 1 := by
  refine ⟨modify_eq_rewritten i v req hv, rewritten_x_uri i req,
    rewritten_x_auth i req, rewritten_x_ttl i req, ?_, ?_, ?_⟩
  · rw [rewritten_x_uri i req]
    rfl
  · rw [rewritten_x_auth i req]
    rfl
  · rw [rewritten_x_ttl i req]
    rfl

/-- C9 witness: a concrete request that already carries all three header
names before interception; each ends with exactly the inserted value. -/
theorem intercept_headers_single_valued_witness :
    (ProxyInterceptor.mk "https://p.example/" "tok"
        "60000").modify_before_transmit (fun _ => true)
        (Request.mk "https://orig.example/"
          [("x-uri", "stale"), ("x-momento-authorization", "stale2"),
            ("x-ttl-millis", "stale3")] [])
      = .ok (rewritten (ProxyInterceptor.mk "https://p.example/" "tok" "60000")
          (Request.mk "https://orig.example/"
            [("x-uri", "stale"), ("x-momento-authorization", "stale2"),
              ("x-ttl-millis", "stale3")] []))
    ∧ headerValues (rewritten
        (ProxyInterceptor.mk "https://p.example/" "tok" "60000")
        (Request.mk "https://orig.example/"
          [("x-uri", "stale"), ("x-momento-authorization", "stale2"),
            ("x-ttl-millis", "stale3")] [])).headers "x-uri"
        = ["https://orig.example/"]
    ∧ headerValues (rewritten
        (ProxyInterceptor.mk "https://p.example/" "tok" "60000")
        (Request.mk "https://orig.example/"
          [("x-uri", "stale"), ("x-momento-authorization", "stale2"),
            ("x-ttl-millis", "stale3")] [])).headers "x-momento-authorization"
        = ["tok"]
    ∧ headerValues (rewritten
        (ProxyInterceptor.mk "https://p.example/" "tok" "60000")
        (Request.mk "https://orig.example/"
          [("x-uri", "stale"), ("x-momento-authorization", "stale2"),
            ("x-ttl-millis", "stale3")] [])).headers "x-ttl-millis"
        = ["60000"]
    ∧ (headerValues (rewritten
        (ProxyInterceptor.mk "https://p.example/" "tok" "60000")
        (Request.mk "https://orig.example/"
          [("x-uri", "stale"), ("x-momento-authorization", "stale2"),
            ("x-ttl-millis", "stale3")] [])).headers "x-uri").length = 1
    ∧ (headerValues (rewritten
        (ProxyInterceptor.mk "https://p.example/" "tok" "60000")
        (Request.mk "https://orig.example/"
          [("x-uri", "stale"), ("x-momento-authorization", "stale2"),
            ("x-ttl-millis", "stale3")] [])).headers
        "x-momento-authorization").length = 1
    ∧ (headerValues (rewritten
        (ProxyInterceptor.mk "https://p.example/" "tok" "60000")
        (Request.mk "https://orig.example/"
          [("x-uri", "stale"), ("x-momento-authorization", "stale2"),
            ("x-ttl-millis", "stale3")] [])).headers
        "x-ttl-millis").length = 1 :=
  intercept_headers_single_valued _ _ _ rfl

/-- C10: on every execution path `modify_before_transmit` either returns
`Ok(())` or panics; the `Err` branch of its `Result` type is never
produced. -/
theorem intercept_never_returns_err (i : ProxyInterceptor)
    (v : String → Bool) (req : Request) :
    (i.modify_before_transmit v req).isErr = false := by
  cases hb : v i.proxy_uri with
  | true =>
    rw [modify_eq_rewritten i v req hb]
    rfl
  | false =>
    rw [modify_eq_panicked i v req hb]
    rfl
